import Mathlib

/-!
# Verification of the fridge-troubleshooting RAG retrieval-and-scoring core

Shallow embedding of the accuracy scorer (`src/tools.py`:
`_check_model_appliance_type`, `calculate_accuracy_score`,
`search_samsung_manuals_rag`), the vector-store upsert
(`src/rag_pipeline/vector_store.py`: `QdrantStore.add_documents`) and the
content-hash selection of the document processor
(`src/rag_pipeline/document_processor.py`: `DocumentProcessor.get_file_hash`
and its two callers).

Modelling conventions:
* Python floats are modelled as exact rationals (`ℚ`).  All numeric literals
  of the source (0.4, 0.5, 0.55, 0.8, …) are exact decimal fractions here; for
  the comparisons the source performs (score thresholds, the 80%-prefix test
  `matching_chars >= min_len * 0.8`, the weight sum) the double-precision
  rounding noise of the corresponding Python floats is far below the distance
  to any comparison boundary reachable by the integer/decimal quantities
  involved, so the rational model decides every comparison the same way.
* `round(x, 1)` of Python is round-half-to-even on the scaled value,
  modelled by `pyRound1`.
* Optional string arguments are `Option String`; Python truthiness of a
  string (absent or empty ⇒ falsy) is `optTruthy`.
* Character-level string helpers (`upperStr`, `stripAsterisks`, `trimStr`,
  `pySplit`, `strIn`) mirror `str.upper`, the composition
  `.replace("**", "").replace("*", "")` (which removes exactly every `*`),
  `str.strip()`, `str.split()` (split on whitespace runs, dropping empty
  tokens) and the substring operator `in` (for which `"" in s` is true).
  The source only feeds ASCII model/brand identifiers through these.
-/

/-- A search result as produced by the retriever: similarity `score`, payload
`metadata` and chunk `text` (`rag_pipeline/vector_store.py` formats results as
`{id, score, text, metadata}`; the scorer reads `score` and `metadata`,
defaulting each metadata key to `""` via `.get(..., '')`). -/
structure RMeta where
  model_number : String := ""
  brand : String := ""
  appliance_type : String := ""
  source : String := ""
deriving DecidableEq, Repr

structure RResult where
  score : ℚ
  metadata : RMeta := {}
  text : String := ""
deriving DecidableEq, Repr

/-- The breakdown dictionary of an accuracy score. -/
structure Breakdown where
  similarity : ℚ
  model_match : ℚ
  brand_match : ℚ
deriving DecidableEq, Repr

/-- The dictionary returned by `calculate_accuracy_score`; keys that are only
present in the appliance-type-mismatch return are `Option`s (`none` = key
absent). -/
structure AccuracyResult where
  accuracy : ℚ
  level : String
  breakdown : Breakdown
  error : Option String := none
  error_message : Option String := none
  detected_model_type : Option String := none
  expected_type : Option String := none
  user_model : Option String := none
deriving DecidableEq, Repr

/-- `str.upper()` (ASCII case mapping; the repository only uppercases model
and brand identifiers). -/
def upperStr (s : String) : String := ⟨s.toList.map Char.toUpper⟩

/-- `str.lower()`. -/
def lowerStr (s : String) : String := ⟨s.toList.map Char.toLower⟩

/-- `.replace("**", "").replace("*", "")`: the two replacements jointly delete
exactly every `*` character. -/
def stripAsterisks (s : String) : String := ⟨s.toList.filter (fun c => c ≠ '*')⟩

/-- `str.strip()`: drop leading and trailing whitespace. -/
def trimStr (s : String) : String :=
  ⟨((s.toList.dropWhile Char.isWhitespace).reverse.dropWhile Char.isWhitespace).reverse⟩

/-- `str.split()` worker: split on whitespace runs, dropping empty tokens. -/
def pySplitGo : List Char → List Char → List String
  | [], acc => if acc = [] then [] else [⟨acc.reverse⟩]
  | c :: cs, acc =>
    if c.isWhitespace then
      if acc = [] then pySplitGo cs [] else (⟨acc.reverse⟩ : String) :: pySplitGo cs []
    else pySplitGo cs (c :: acc)

/-- `str.split()` with no argument. -/
def pySplit (s : String) : List String := pySplitGo s.toList []

/-- Contiguous-sublist test on character lists (Python `needle in hay`;
in particular `"" in s` is true). -/
def subOccurs : List Char → List Char → Bool
  | n, [] => n.isEmpty
  | n, h :: t => n.isPrefixOf (h :: t) || subOccurs n t

/-- Python substring operator `needle in hay` on strings. -/
def strIn (needle hay : String) : Bool := subOccurs needle.toList hay.toList

/-- Length of the longest common leading prefix of two character lists
(the loop of `_check_model_appliance_type` that counts matching prefix
characters, stopping at the first mismatch). -/
def commonPrefixLen : List Char → List Char → Nat
  | a :: as, b :: bs => if a = b then commonPrefixLen as bs + 1 else 0
  | _, _ => 0

/-- Python truthiness of an optional string argument. -/
def optTruthy : Option String → Bool
  | none => false
  | some s => !(s = "")

/-- Round-half-to-even to an integer (what Python's `round` does on the exact
value of its argument). -/
def rndNE (x : ℚ) : ℤ :=
  let f := ⌊x⌋
  let r := x - f
  if r < 1/2 then f
  else if 1/2 < r then f + 1
  else if f % 2 = 0 then f else f + 1

/-- Python `round(x, 1)`. -/
def pyRound1 (x : ℚ) : ℚ := (rndNE (x * 10) : ℚ) / 10

/-- The auxiliary search oracle of the mismatch detector: the `results` list
returned by `search_manuals_rag(query=user_model, top_k=10, brand=user_brand,
product_type=None)`. -/
abbrev AuxSearch := String → Option String → List RResult

/-- The normalization of `_check_model_appliance_type`:
`model.upper().replace("**", "").replace("*", "").strip()` (applied both to
the user's model and to each candidate's `model_number`). -/
def cleanModelSearch (s : String) : String := trimStr (stripAsterisks (upperStr s))

/-- First-pass test of `_check_model_appliance_type` for one candidate:
exact equality of the cleaned strings, or `score > 0.5`, cleaned candidate of
length ≥ 6, shorter cleaned length ≥ 6 and the two `[:min_len]` prefixes
equal. -/
def pass1Match (uc : String) (r : RResult) : Bool :=
  let rc := cleanModelSearch r.metadata.model_number
  let minLen := min uc.length rc.length
  uc = rc ||
    (decide ((1 : ℚ)/2 < r.score) && decide (6 ≤ rc.length) && decide (6 ≤ minLen) &&
      decide (uc.toList.take minLen = rc.toList.take minLen))

/-- Second-pass test: `score > 0.4`, cleaned candidate of length ≥ 6, shorter
cleaned length ≥ 6, and matching leading characters covering at least 80% of
the shorter length (`matching_chars >= min_len * 0.8`, an exact comparison of
an integer against a decimal fraction, stated as `5 * LCP ≥ 4 * min_len`). -/
def pass2Match (uc : String) (r : RResult) : Bool :=
  let rc := cleanModelSearch r.metadata.model_number
  let minLen := min uc.length rc.length
  decide ((2 : ℚ)/5 < r.score) && decide (6 ≤ rc.length) && decide (6 ≤ minLen) &&
    decide (4 * minLen ≤ 5 * commonPrefixLen uc.toList rc.toList)

/-- First loop of `_check_model_appliance_type`: return the (lower-cased)
`appliance_type` of the first candidate passing the first-pass test. -/
def findPass1 (uc : String) : List RResult → Option String
  | [] => none
  | r :: rs =>
    if pass1Match uc r then some (lowerStr r.metadata.appliance_type)
    else findPass1 uc rs

/-- Second loop of `_check_model_appliance_type`. -/
def findPass2 (uc : String) : List RResult → Option String
  | [] => none
  | r :: rs =>
    if pass2Match uc r then some (lowerStr r.metadata.appliance_type)
    else findPass2 uc rs

/-- `_check_model_appliance_type(user_model, user_brand)`: search the index
with the model number as query, then look for a matching model in two passes;
return its lower-cased appliance type, `none` when nothing matches. -/
def checkModelApplianceType (aux : AuxSearch) (user_model : String)
    (user_brand : Option String) : Option String :=
  let rs := aux user_model user_brand
  let uc := cleanModelSearch user_model
  match findPass1 uc rs with
  | some t => some t
  | none => findPass2 uc rs

/-- The mismatch guard of `calculate_accuracy_score` (lines 136–153): when a
truthy model and appliance type are supplied, and the detector returns a
truthy type different from the lower-cased claimed type, yield the detected
type and the expected (lower-cased) type. -/
def mismatchInfo (aux : AuxSearch) (um ub uat : Option String) :
    Option (String × String) :=
  if optTruthy um && optTruthy uat then
    let ut := lowerStr (uat.getD "")
    match checkModelApplianceType aux (um.getD "") ub with
    | some t => if t ≠ "" ∧ t ≠ ut then some (t, ut) else none
    | none => none
  else none

/-- Average similarity of the top `min(3, N)` results, scaled to 0–100
(`calculate_accuracy_score` lines 155–157). -/
def avgSimilarity (results : List RResult) : ℚ :=
  let top := results.take 3
  ((top.map (·.score)).sum / (top.length : ℚ)) * 100

/-- The scorer's model normalization: `upper().replace("*", "").strip()`. -/
def cleanModelScore (s : String) : String := trimStr (stripAsterisks (upperStr s))

/-- `user_series`: alphanumeric characters of the first 8 characters of the
cleaned model. -/
def userSeries (umc : String) : String := ⟨(umc.toList.take 8).filter Char.isAlphanum⟩

/-- Model-match loop (lines 166–179): scan results in order; a candidate with
non-empty `model_number` gives 100 on mutual containment (stop), 80 on a
series hit (stop), and sets the running value to 50 on a long-token hit
(no stop). -/
def modelMatchGo (umc us : String) : List RResult → ℚ → ℚ
  | [], acc => acc
  | r :: rs, acc =>
    let rm := upperStr r.metadata.model_number
    if rm = "" then modelMatchGo umc us rs acc
    else if strIn umc rm || strIn rm umc then 100
    else if (!(us = "")) && strIn us rm then 80
    else if ((pySplit umc).filter (fun p => 3 < p.length)).any (fun p => strIn p rm) then
      modelMatchGo umc us rs 50
    else modelMatchGo umc us rs acc

/-- `model_match` component (0 when no truthy model is supplied). -/
def modelMatch (results : List RResult) (um : Option String) : ℚ :=
  if optTruthy um then
    let umc := cleanModelScore (um.getD "")
    modelMatchGo umc (userSeries umc) results 0
  else 0

/-- Brand-match loop (lines 185–195): 100 on mutual containment of the
upper-cased brands or on any whitespace token of the user brand occurring in
the candidate brand. -/
def brandMatchGo (ubu : String) : List RResult → ℚ
  | [] => 0
  | r :: rs =>
    let rb := upperStr r.metadata.brand
    if rb = "" then brandMatchGo ubu rs
    else if strIn ubu rb || strIn rb ubu then 100
    else if (pySplit ubu).any (fun w => strIn w rb) then 100
    else brandMatchGo ubu rs

/-- Brand-inference loop (lines 201–213): known brand/model-prefix pairs give
80. -/
def brandInferGo (mu : String) : List RResult → ℚ
  | [] => 0
  | r :: rs =>
    let rb := upperStr r.metadata.brand
    if rb = "" then brandInferGo mu rs
    else if strIn "SAMSUNG" rb && (strIn "RS" mu || strIn "RF" mu || strIn "MC" mu) then 80
    else if strIn "LG" rb && (strIn "LRM" mu || strIn "LFX" mu) then 80
    else if strIn "GE" rb && (strIn "GNE" mu || strIn "GTE" mu) then 80
    else brandInferGo mu rs

/-- `brand_match` component: direct match when a truthy brand is supplied;
otherwise (no brand, truthy model, still 0) the inference loop. -/
def brandMatch (results : List RResult) (um ub : Option String) : ℚ :=
  let b0 := if optTruthy ub then brandMatchGo (upperStr (ub.getD "")) results else 0
  if b0 = 0 && !optTruthy ub && optTruthy um then
    brandInferGo (upperStr (um.getD "")) results
  else b0

/-- The weighted composite of lines 218–222:
`avg_similarity*0.55 + model_match*0.25 + brand_match*0.20` (unrounded). -/
def compositeScore (results : List RResult) (um ub : Option String) : ℚ :=
  avgSimilarity results * (11/20) + modelMatch results um * (1/4) +
    brandMatch results um ub * (1/5)

/-- Level mapping of lines 225–234, applied to the unrounded composite. -/
def levelOf (a : ℚ) : String :=
  if 90 ≤ a then "Very High"
  else if 75 ≤ a then "High"
  else if 60 ≤ a then "Medium"
  else if 40 ≤ a then "Low"
  else "Very Low"

/-- `calculate_accuracy_score(results, user_model, user_brand,
user_appliance_type)` (lines 111–244). -/
def calculate_accuracy_score (aux : AuxSearch) (results : List RResult)
    (um ub uat : Option String) : AccuracyResult :=
  if results = [] then
    { accuracy := 0, level := "No Information", breakdown := ⟨0, 0, 0⟩ }
  else
    match mismatchInfo aux um ub uat with
    | some (t, ut) =>
      { accuracy := 0, level := "Wrong Appliance Type", breakdown := ⟨0, 0, 0⟩,
        error := some "appliance_type_mismatch",
        error_message := some ("⚠️ ERROR: The model " ++ um.getD "" ++ " is a " ++ t ++
          ", not a " ++ ut ++ ". Please provide the correct " ++ ut ++ " model number."),
        detected_model_type := some t, expected_type := some ut,
        user_model := some (um.getD "") }
    | none =>
      let acc := compositeScore results um ub
      { accuracy := pyRound1 acc, level := levelOf acc,
        breakdown := ⟨pyRound1 (avgSimilarity results), modelMatch results um,
          brandMatch results um ub⟩ }

/-- The fields of the dictionary returned by `search_samsung_manuals_rag`
that the filtering contract concerns (context assembly and the attached
accuracy score are orthogonal to the filtering claims and not repeated
here; the accuracy score is `calculate_accuracy_score` applied to
`results`). -/
structure SearchOut where
  results : List RResult
  num_results : Nat
  found_information : Bool
  min_similarity_threshold : ℚ
  filtered_count : Nat
deriving DecidableEq, Repr

/-- `search_samsung_manuals_rag` (lines 247–334), parameterized by the
underlying `search_manuals_rag` call as an oracle from the requested result
count to the returned `results` list (query/brand/type arguments are fixed
for one call and folded into the oracle): over-fetch `top_k * 3`, keep
results with `score >= min_similarity`, truncated to `top_k`; if none
clears, re-filter at `max(0.5, min_similarity - 0.15)`; if that is also
empty, fall back to the unfiltered first `top_k`.  `filtered_count` is the
length of the last filtered list. -/
def search_samsung_manuals_rag (searchFn : Nat → List RResult)
    (top_k : Nat) (min_similarity : ℚ) : SearchOut :=
  let initial_top_k := top_k * 3
  let all_results := searchFn initial_top_k
  let filtered := all_results.filter (fun r => decide (min_similarity ≤ r.score))
  if filtered ≠ [] then
    let final := filtered.take top_k
    { results := final, num_results := final.length,
      found_information := decide (0 < final.length),
      min_similarity_threshold := min_similarity,
      filtered_count := filtered.length }
  else
    let fallback_threshold := max (1/2 : ℚ) (min_similarity - 3/20)
    let relaxed := all_results.filter (fun r => decide (fallback_threshold ≤ r.score))
    let final := if relaxed ≠ [] then relaxed.take top_k else all_results.take top_k
    { results := final, num_results := final.length,
      found_information := decide (0 < final.length),
      min_similarity_threshold := min_similarity,
      filtered_count := relaxed.length }

/-- A document handed to `QdrantStore.add_documents`: the dicts with
`text`, `embedding`, `metadata` (and an `id`; the source generates a UUID
when absent — modelled as always present, which the dimension claim does not
depend on). -/
structure QdrantDoc where
  id : String
  text : String
  embedding : List ℚ
  metadata : List (String × String) := []
deriving DecidableEq, Repr

/-- A Qdrant `PointStruct`: id, vector, and payload (text plus metadata). -/
structure QdrantPoint where
  id : String
  vector : List ℚ
  payload_text : String
  payload_meta : List (String × String)
deriving DecidableEq, Repr

/-- The point built for one document by `add_documents` (lines 100–113). -/
def mkPoint (d : QdrantDoc) : QdrantPoint :=
  ⟨d.id, d.embedding, d.text, d.metadata⟩

/-- `QdrantStore.add_documents(documents, batch_size)` (lines 83–130): build
one point per document and upsert every batch unconditionally; returns the
store contents after all upserts and the count `len(points)`.  The
`embedding_dim` argument is the store's configured `self.embedding_dim`,
which `add_documents` never consults; the batch split (`batch_size` groups
upserted in order) writes exactly the concatenation of all points, modelled
as one append. -/
def add_documents (_embedding_dim : Nat) (store : List QdrantPoint)
    (documents : List QdrantDoc) : List QdrantPoint × Nat :=
  let points := documents.map mkPoint
  (store ++ points, points.length)

/-- Hash algorithms `DocumentProcessor.get_file_hash` can select. -/
inductive HashAlg where
  | md5
  | sha256
deriving DecidableEq, Repr

/-- The algorithm-selection logic of `DocumentProcessor.get_file_hash`
(lines 76–99): `"md5"` and `"sha256"` are supported, anything else raises
`ValueError`. -/
def get_file_hash_select (algorithm : String) : Except String HashAlg :=
  if algorithm = "md5" then Except.ok HashAlg.md5
  else if algorithm = "sha256" then Except.ok HashAlg.sha256
  else Except.error ("Unsupported algorithm: " ++ algorithm)

/-- The default of the `algorithm` parameter of `get_file_hash`. -/
def get_file_hash_default_algorithm : String := "md5"

/-- `_process_with_docling` (line 161) calls `self.get_file_hash(file_path)`
with the algorithm argument omitted. -/
def docling_file_hash_alg : Except String HashAlg :=
  get_file_hash_select get_file_hash_default_algorithm

/-- `_process_with_pymupdf` (line 191) calls `self.get_file_hash(file_path)`
with the algorithm argument omitted. -/
def pymupdf_file_hash_alg : Except String HashAlg :=
  get_file_hash_select get_file_hash_default_algorithm

/-- The per-candidate match criterion exactly as the specification words it:
clauses (i) exact equality, (ii) score > 0.5 with the shorter normalized
string (of length ≥ 6) being a leading prefix of the longer, (iii) score >
0.4 with the longest common leading prefix covering at least 80% of the
shorter string's length — clause (iii) with no lower bound on the shorter
length.  Stated from the spec for comparison against the implementation. -/
def specDeclaredMatch (uc : String) (r : RResult) : Prop :=
  let rc := cleanModelSearch r.metadata.model_number
  let minLen := min uc.length rc.length
  uc = rc ∨
    ((1 : ℚ)/2 < r.score ∧ 6 ≤ minLen ∧
      minLen ≤ commonPrefixLen uc.toList rc.toList) ∨
    ((2 : ℚ)/5 < r.score ∧
      4 * minLen ≤ 5 * commonPrefixLen uc.toList rc.toList)

/-- The per-candidate match criterion the code implements: as
`specDeclaredMatch`, but clause (iii) also requires the shorter normalized
string to have length at least 6. -/
def amendedDeclaredMatch (uc : String) (r : RResult) : Prop :=
  let rc := cleanModelSearch r.metadata.model_number
  let minLen := min uc.length rc.length
  uc = rc ∨
    ((1 : ℚ)/2 < r.score ∧ 6 ≤ minLen ∧
      minLen ≤ commonPrefixLen uc.toList rc.toList) ∨
    ((2 : ℚ)/5 < r.score ∧ 6 ≤ minLen ∧
      4 * minLen ≤ 5 * commonPrefixLen uc.toList rc.toList)

/-- An auxiliary search that finds nothing (used where the detector is
irrelevant). -/
def emptyAux : AuxSearch := fun _ _ => []

/-- Scenario A auxiliary search: the user's model is found in the index
tagged with appliance type "Laundry Combo". -/
def auxLaundry : AuxSearch :=
  fun _ _ => [⟨9/10, ⟨"WD53DBA900H", "", "Laundry Combo", ""⟩, ""⟩]

/-- Candidate for the C2 counterexample: cleaned model "ABCDE12345",
similarity 0.45; against user model "ABCDE" the common leading prefix covers
100% ≥ 80% of the shorter string, whose length 5 is below 6. -/
def c2cand : RResult := ⟨9/20, ⟨"ABCDE12345", "", "laundry combo", ""⟩, ""⟩

/-- Scenario B result list: top-3 similarities 0.92 / 0.88 / 0.85 (a fourth,
lower result is ignored by the top-3 mean), an exact user-model match and an
exact user-brand match in the first result. -/
def scenarioB : List RResult :=
  [⟨92/100, ⟨"RS28A5F61", "SAMSUNG", "refrigerator", ""⟩, ""⟩,
   ⟨88/100, {}, ""⟩,
   ⟨85/100, {}, ""⟩,
   ⟨50/100, {}, ""⟩]

/-- Single-result list for the C3 counterexample: mean similarity 10.27,
whose unrounded weighted share 5.6485 rounds to 5.6 while the share of the
rounded breakdown similarity 10.3 is 5.665, rounding to 5.7 (both sides at
distance ≥ 0.015 from the nearest rounding boundary, so the float/rational
modelling gap cannot flip either). -/
def c3cexResults : List RResult := [⟨1027/10000, {}, ""⟩]

/-- A one-result list with an in-range score, used to instantiate
hypothesis-carrying theorems. -/
def oneHalfResult : List RResult := [⟨1/2, {}, ""⟩]

/-- Document with an embedding of length 2 against a store configured for
dimension 1536 (the C8 failing input). -/
def mismatchedDoc : QdrantDoc := ⟨"doc1", "Ice maker not producing ice", [1/10, 2/10], []⟩

/-- Scenario D search oracle: no result clears 0.95, one clears 0.8. -/
def scenarioDSearch : Nat → List RResult := fun _ => [⟨17/20, {}, ""⟩, ⟨3/5, {}, ""⟩]

lemma findPass1_ne_none_iff (uc : String) (rs : List RResult) :
    findPass1 uc rs ≠ none ↔ ∃ r ∈ rs, pass1Match uc r = true := by
  induction rs with
  | nil => simp [findPass1]
  | cons r rs ih =>
    by_cases h : pass1Match uc r <;> simp [findPass1, h, ih]

lemma findPass2_ne_none_iff (uc : String) (rs : List RResult) :
    findPass2 uc rs ≠ none ↔ ∃ r ∈ rs, pass2Match uc r = true := by
  induction rs with
  | nil => simp [findPass2]
  | cons r rs ih =>
    by_cases h : pass2Match uc r <;> simp [findPass2, h, ih]

lemma take_eq_iff_le_commonPrefixLen :
    ∀ (n : Nat) (a b : List Char), n ≤ a.length → n ≤ b.length →
      (a.take n = b.take n ↔ n ≤ commonPrefixLen a b) := by
  intro n
  induction n with
  | zero => intro a b _ _; simp
  | succ n ih =>
    intro a b ha hb
    match a, b with
    | [], _ => simp at ha
    | _ :: _, [] => simp at hb
    | x :: xs, y :: ys =>
      by_cases hxy : x = y
      · subst hxy
        simp only [List.take_succ_cons, List.cons.injEq, true_and, commonPrefixLen,
          eq_self_iff_true, if_true]
        rw [ih xs ys (Nat.succ_le_succ_iff.mp (by simpa using ha))
          (Nat.succ_le_succ_iff.mp (by simpa using hb))]
        omega
      · simp only [List.take_succ_cons, List.cons.injEq, commonPrefixLen, if_neg hxy]
        constructor
        · rintro ⟨h, -⟩; exact absurd h hxy
        · intro h; omega

lemma pass_or_iff (uc : String) (r : RResult) :
    (pass1Match uc r = true ∨ pass2Match uc r = true) ↔ amendedDeclaredMatch uc r := by
  have htake := take_eq_iff_le_commonPrefixLen
    (min uc.length (cleanModelSearch r.metadata.model_number).length)
    uc.toList (cleanModelSearch r.metadata.model_number).toList
    (min_le_left _ _) (min_le_right _ _)
  unfold pass1Match pass2Match amendedDeclaredMatch
  simp only [Bool.or_eq_true, Bool.and_eq_true, decide_eq_true_eq]
  constructor
  · rintro (h1 | h2)
    · rcases h1 with h | ⟨⟨⟨hs, _⟩, hmin⟩, ht⟩
      · exact Or.inl h
      · exact Or.inr (Or.inl ⟨hs, hmin, htake.mp ht⟩)
    · rcases h2 with ⟨⟨⟨hs, _⟩, hmin⟩, h45⟩
      exact Or.inr (Or.inr ⟨hs, hmin, h45⟩)
  · rintro (h | ⟨hs, hmin, hcpl⟩ | ⟨hs, hmin, h45⟩)
    · exact Or.inl (Or.inl h)
    · exact Or.inl (Or.inr ⟨⟨⟨hs, le_trans hmin (min_le_right _ _)⟩, hmin⟩, htake.mpr hcpl⟩)
    · exact Or.inr ⟨⟨⟨hs, le_trans hmin (min_le_right _ _)⟩, hmin⟩, h45⟩

/-- C2 (amended): after normalizing both model strings (strip `*`,
whitespace, uppercase), the detector declares a match if and only if some
candidate satisfies: (i) exact equality of normalized strings, (ii) score >
0.5 with the shorter normalized string (length ≥ 6) a leading prefix of the
longer, or (iii) score > 0.4, the shorter normalized string of length at
least 6, and the longest common leading prefix covering ≥ 80% of the shorter
length; if no candidate matches, the detector reports no mismatch and
scoring proceeds normally. -/
theorem c2_match_criteria :
    (∀ (aux : AuxSearch) (m : String) (ub : Option String),
      checkModelApplianceType aux m ub ≠ none ↔
        ∃ r ∈ aux m ub, amendedDeclaredMatch (cleanModelSearch m) r) ∧
    (∀ (aux : AuxSearch) (um ub uat : Option String),
      checkModelApplianceType aux (um.getD "") ub = none →
        mismatchInfo aux um ub uat = none) := by
  constructor
  · intro aux m ub
    unfold checkModelApplianceType
    simp only [ne_eq]
    rcases hf : findPass1 (cleanModelSearch m) (aux m ub) with _ | t
    · show findPass2 (cleanModelSearch m) (aux m ub) ≠ none ↔ _
      rw [findPass2_ne_none_iff]
      constructor
      · rintro ⟨r, hr, h2⟩
        exact ⟨r, hr, (pass_or_iff _ r).mp (Or.inr h2)⟩
      · rintro ⟨r, hr, ham⟩
        rcases (pass_or_iff _ r).mpr ham with h1 | h2
        · exact absurd hf ((findPass1_ne_none_iff _ _).mpr ⟨r, hr, h1⟩)
        · exact ⟨r, hr, h2⟩
    · show (some t : Option String) ≠ none ↔ _
      have h1 := (findPass1_ne_none_iff (cleanModelSearch m) (aux m ub)).mp
        (by rw [hf]; exact Option.some_ne_none t)
      rcases h1 with ⟨r, hr, hp1⟩
      simp only [ne_eq, reduceCtorEq, not_false_eq_true, true_iff]
      exact ⟨r, hr, (pass_or_iff _ r).mp (Or.inl hp1)⟩
  · intro aux um ub uat h
    unfold mismatchInfo
    rcases hb : optTruthy um && optTruthy uat
    · simp
    · simp only [if_true]
      rw [h]

/-- C2 counterexample: candidate `c2cand` (normalized model "ABCDE12345",
score 0.45) satisfies the claim's clause (iii) against user model "ABCDE"
(the common leading prefix covers 100% of the shorter string), yet the
detector declares no match, because the shorter normalized string has
length 5 < 6. -/
theorem c2_counterexample :
    specDeclaredMatch (cleanModelSearch "ABCDE") c2cand ∧
    checkModelApplianceType (fun _ _ => [c2cand]) "ABCDE" none = none := by
  constructor
  · unfold specDeclaredMatch
    with_unfolding_all decide
  · with_unfolding_all decide

/-- C2 witness: a concrete run of the no-match path — with an empty
auxiliary result set the detector finds nothing and the mismatch guard does
not fire. -/
theorem c2_witness : mismatchInfo emptyAux (some "RS28A5F61") none
    (some "refrigerator") = none :=
  c2_match_criteria.2 emptyAux (some "RS28A5F61") none (some "refrigerator") rfl

/-- C1: when a (truthy) user model and expected appliance type are supplied
and the auxiliary lookup finds a matching model whose (non-empty, lower-cased)
appliance type differs from the lower-cased claimed type, the function
returns immediately with accuracy 0, level "Wrong Appliance Type", an
all-zero breakdown, error "appliance_type_mismatch", the detected type, the
expected type and the user's model string — independent of the result list's
contents (no component scoring happens). -/
theorem c1_wrong_appliance_type (aux : AuxSearch) (results : List RResult)
    (ub : Option String) (m a t : String) (hm : m ≠ "") (ha : a ≠ "")
    (ht : checkModelApplianceType aux m ub = some t) (ht0 : t ≠ "")
    (hne : t ≠ lowerStr a) (hres : results ≠ []) :
    calculate_accuracy_score aux results (some m) ub (some a) =
      { accuracy := 0, level := "Wrong Appliance Type", breakdown := ⟨0, 0, 0⟩,
        error := some "appliance_type_mismatch",
        error_message := some ("⚠️ ERROR: The model " ++ m ++ " is a " ++ t ++
          ", not a " ++ lowerStr a ++ ". Please provide the correct " ++ lowerStr a ++
          " model number."),
        detected_model_type := some t, expected_type := some (lowerStr a),
        user_model := some m } := by
  have hmi : mismatchInfo aux (some m) ub (some a) = some (t, lowerStr a) := by
    unfold mismatchInfo
    have h1 : optTruthy (some m) = true := by simp [optTruthy, hm]
    have h2 : optTruthy (some a) = true := by simp [optTruthy, ha]
    rw [h1, h2]
    simp only [Bool.and_self, if_true, Option.getD_some, ht]
    rw [if_pos ⟨ht0, hne⟩]
  unfold calculate_accuracy_score
  rw [if_neg hres, hmi]
  rfl

/-- C1 witness (Scenario A): model "WD53DBA900H" claimed as a refrigerator
but indexed as a "Laundry Combo". -/
theorem c1_witness :
    calculate_accuracy_score auxLaundry [⟨8/10, {}, ""⟩] (some "WD53DBA900H")
        none (some "refrigerator") =
      { accuracy := 0, level := "Wrong Appliance Type", breakdown := ⟨0, 0, 0⟩,
        error := some "appliance_type_mismatch",
        error_message := some ("⚠️ ERROR: The model " ++ "WD53DBA900H" ++ " is a " ++
          "laundry combo" ++ ", not a " ++ lowerStr "refrigerator" ++
          ". Please provide the correct " ++ lowerStr "refrigerator" ++
          " model number."),
        detected_model_type := some "laundry combo",
        expected_type := some (lowerStr "refrigerator"),
        user_model := some "WD53DBA900H" } :=
  c1_wrong_appliance_type auxLaundry [⟨8/10, {}, ""⟩] none "WD53DBA900H"
    "refrigerator" "laundry combo" (by decide) (by decide)
    (by with_unfolding_all decide) (by decide) (by decide)
    (by with_unfolding_all decide)

/-- C10: with an empty result list the return is exactly accuracy 0, level
"No Information", an all-zero breakdown and no error keys — for every
auxiliary search oracle and all values of the model, brand and appliance-type
arguments, so the empty case is decided before the mismatch detector and the
auxiliary lookup cannot influence the result. -/
theorem c10_empty_results (aux : AuxSearch) (um ub uat : Option String) :
    calculate_accuracy_score aux [] um ub uat =
      { accuracy := 0, level := "No Information", breakdown := ⟨0, 0, 0⟩,
        error := none, error_message := none, detected_model_type := none,
        expected_type := none, user_model := none } := rfl

/-- C3 counterexample: one result with similarity 0.1027 and no user
identity.  The code returns accuracy 5.6 (from the unrounded similarity
10.27), while the claim's formula over the breakdown components gives
round₁(10.3·0.55 + 0·0.25 + 0·0.20) = 5.7. -/
theorem c3_counterexample :
    (calculate_accuracy_score emptyAux c3cexResults none none none).accuracy = 28/5 ∧
    pyRound1
      ((calculate_accuracy_score emptyAux c3cexResults none none none).breakdown.similarity
          * (11/20) +
        (calculate_accuracy_score emptyAux c3cexResults none none none).breakdown.model_match
          * (1/4) +
        (calculate_accuracy_score emptyAux c3cexResults none none none).breakdown.brand_match
          * (1/5)) = 57/10 ∧
    (28/5 : ℚ) ≠ 57/10 := by
  refine ⟨by with_unfolding_all decide, by with_unfolding_all decide,
    by with_unfolding_all decide⟩

set_option maxRecDepth 100000 in
/-- C3 (amended): the returned accuracy is
round₁(S·0.55 + model_match·0.25 + brand_match·0.20) where S is the
*unrounded* similarity component (the breakdown reports S rounded to one
decimal); the Scenario B instance holds as claimed: similarity 88.3,
model_match 100, brand_match 100, accuracy 93.6, level "Very High". -/
theorem c3_weighted_composite :
    (∀ (aux : AuxSearch) (results : List RResult) (um ub uat : Option String),
      results ≠ [] → mismatchInfo aux um ub uat = none →
      (calculate_accuracy_score aux results um ub uat).accuracy =
        pyRound1 (avgSimilarity results * (11/20) + modelMatch results um * (1/4) +
          brandMatch results um ub * (1/5))) ∧
    calculate_accuracy_score emptyAux scenarioB (some "RS28A5F61") (some "Samsung") none =
      { accuracy := 468/5, level := "Very High", breakdown := ⟨883/10, 100, 100⟩ } := by
  constructor
  · intro aux results um ub uat h1 h2
    unfold calculate_accuracy_score
    rw [if_neg h1, h2]
    rfl
  · with_unfolding_all decide

/-- C3 witness: the amended accuracy formula instantiated at a concrete
one-result call. -/
theorem c3_witness :
    (calculate_accuracy_score emptyAux oneHalfResult none none none).accuracy =
      pyRound1 (avgSimilarity oneHalfResult * (11/20) + modelMatch oneHalfResult none * (1/4) +
        brandMatch oneHalfResult none none * (1/5)) :=
  c3_weighted_composite.1 emptyAux oneHalfResult none none none
    (by unfold oneHalfResult; exact List.cons_ne_nil _ _) rfl

/-- C4: when the result list is non-empty and the mismatch guard does not
fire, the similarity component of the breakdown is the arithmetic mean of
the similarity scores of the first `min(3, N)` results, scaled by 100 and
rounded to one decimal. -/
theorem c4_similarity_breakdown (aux : AuxSearch) (results : List RResult)
    (um ub uat : Option String) (h1 : results ≠ [])
    (h2 : mismatchInfo aux um ub uat = none) :
    (calculate_accuracy_score aux results um ub uat).breakdown.similarity =
      pyRound1 ((((results.take (min 3 results.length)).map (·.score)).sum /
        ((min 3 results.length : Nat) : ℚ)) * 100) := by
  have htake : results.take (min 3 results.length) = results.take 3 := by
    rcases le_total results.length 3 with h | h
    · rw [min_eq_right h, List.take_of_length_le (le_refl _), List.take_of_length_le h]
    · rw [min_eq_left h]
  unfold calculate_accuracy_score
  rw [if_neg h1, h2]
  show pyRound1 (avgSimilarity results) = _
  simp only [avgSimilarity]
  rw [htake, List.length_take]

/-- C4 witness: the similarity breakdown formula at a concrete one-result
call. -/
theorem c4_witness :
    (calculate_accuracy_score emptyAux oneHalfResult none none none).breakdown.similarity =
      pyRound1 ((((oneHalfResult.take (min 3 oneHalfResult.length)).map (·.score)).sum /
        ((min 3 oneHalfResult.length : Nat) : ℚ)) * 100) :=
  c4_similarity_breakdown emptyAux oneHalfResult none none none
    (by unfold oneHalfResult; exact List.cons_ne_nil _ _) rfl

/-- C5: without the mismatch short-circuit and with at least one result, the
returned level is determined solely by the computed composite accuracy
through the closed, ordered, inclusive thresholds ≥90 / ≥75 / ≥60 / ≥40
(the mapping is applied to the composite value, whose one-decimal rounding
is what the accuracy field reports); in particular accuracy exactly 75
yields "High" and exactly 90 yields "Very High". -/
theorem c5_level_mapping :
    (∀ (aux : AuxSearch) (results : List RResult) (um ub uat : Option String),
      results ≠ [] → mismatchInfo aux um ub uat = none →
      (calculate_accuracy_score aux results um ub uat).level =
        levelOf (compositeScore results um ub)) ∧
    (∀ a : ℚ, 90 ≤ a → levelOf a = "Very High") ∧
    (∀ a : ℚ, 75 ≤ a → a < 90 → levelOf a = "High") ∧
    (∀ a : ℚ, 60 ≤ a → a < 75 → levelOf a = "Medium") ∧
    (∀ a : ℚ, 40 ≤ a → a < 60 → levelOf a = "Low") ∧
    (∀ a : ℚ, a < 40 → levelOf a = "Very Low") ∧
    levelOf 75 = "High" ∧ levelOf 90 = "Very High" := by
  have h90 : ∀ a : ℚ, 90 ≤ a → levelOf a = "Very High" := by
    intro a h; unfold levelOf; rw [if_pos h]
  have h75 : ∀ a : ℚ, 75 ≤ a → a < 90 → levelOf a = "High" := by
    intro a h h'; unfold levelOf; rw [if_neg (not_le.mpr h'), if_pos h]
  refine ⟨?_, h90, h75, ?_, ?_, ?_, h75 75 le_rfl (by norm_num), h90 90 le_rfl⟩
  · intro aux results um ub uat h1 h2
    unfold calculate_accuracy_score
    rw [if_neg h1, h2]
  · intro a h h'
    unfold levelOf
    rw [if_neg (not_le.mpr (lt_of_lt_of_le h' (by norm_num))),
      if_neg (not_le.mpr h'), if_pos h]
  · intro a h h'
    unfold levelOf
    rw [if_neg (not_le.mpr (lt_of_lt_of_le h' (by norm_num))),
      if_neg (not_le.mpr (lt_of_lt_of_le h' (by norm_num))),
      if_neg (not_le.mpr h'), if_pos h]
  · intro a h
    unfold levelOf
    rw [if_neg (not_le.mpr (lt_of_lt_of_le h (by norm_num))),
      if_neg (not_le.mpr (lt_of_lt_of_le h (by norm_num))),
      if_neg (not_le.mpr (lt_of_lt_of_le h (by norm_num))),
      if_neg (not_le.mpr h)]

/-- C5 witness: the level of a concrete non-short-circuited call equals the
threshold mapping of its composite score. -/
theorem c5_witness :
    (calculate_accuracy_score emptyAux oneHalfResult none none none).level =
      levelOf (compositeScore oneHalfResult none none) :=
  c5_level_mapping.1 emptyAux oneHalfResult none none none
    (by unfold oneHalfResult; exact List.cons_ne_nil _ _) rfl

lemma modelMatchGo_mem (umc us : String) (rs : List RResult) (acc : ℚ)
    (hacc : acc = 0 ∨ acc = 50) :
    modelMatchGo umc us rs acc = 0 ∨ modelMatchGo umc us rs acc = 50 ∨
      modelMatchGo umc us rs acc = 80 ∨ modelMatchGo umc us rs acc = 100 := by
  induction rs generalizing acc with
  | nil =>
    rcases hacc with h | h <;> simp [modelMatchGo, h]
  | cons r rs ih =>
    unfold modelMatchGo
    dsimp only
    split_ifs with h1 h2 h3 h4
    · exact ih acc hacc
    · right; right; right; rfl
    · right; right; left; rfl
    · exact ih 50 (Or.inr rfl)
    · exact ih acc hacc

lemma modelMatch_mem (results : List RResult) (um : Option String) :
    modelMatch results um = 0 ∨ modelMatch results um = 50 ∨
      modelMatch results um = 80 ∨ modelMatch results um = 100 := by
  unfold modelMatch
  split_ifs with h
  · exact modelMatchGo_mem _ _ _ 0 (Or.inl rfl)
  · exact Or.inl rfl

lemma brandMatchGo_mem (ubu : String) (rs : List RResult) :
    brandMatchGo ubu rs = 0 ∨ brandMatchGo ubu rs = 100 := by
  induction rs with
  | nil => exact Or.inl rfl
  | cons r rs ih =>
    unfold brandMatchGo
    dsimp only
    split_ifs with h1 h2 h3
    · exact ih
    · exact Or.inr rfl
    · exact Or.inr rfl
    · exact ih

lemma brandInferGo_mem (mu : String) (rs : List RResult) :
    brandInferGo mu rs = 0 ∨ brandInferGo mu rs = 80 := by
  induction rs with
  | nil => exact Or.inl rfl
  | cons r rs ih =>
    unfold brandInferGo
    dsimp only
    split_ifs with h1 h2 h3 h4
    · exact ih
    · exact Or.inr rfl
    · exact Or.inr rfl
    · exact Or.inr rfl
    · exact ih

lemma brandMatch_mem (results : List RResult) (um ub : Option String) :
    brandMatch results um ub = 0 ∨ brandMatch results um ub = 80 ∨
      brandMatch results um ub = 100 := by
  unfold brandMatch
  dsimp only
  split_ifs with hb hi hi
  · rcases brandInferGo_mem (upperStr (um.getD "")) results with h | h
    · exact Or.inl h
    · exact Or.inr (Or.inl h)
  · rcases brandMatchGo_mem (upperStr (ub.getD "")) results with h | h
    · exact Or.inl h
    · exact Or.inr (Or.inr h)
  · rcases brandInferGo_mem (upperStr (um.getD "")) results with h | h
    · exact Or.inl h
    · exact Or.inr (Or.inl h)
  · exact Or.inl rfl

lemma sum_scores_nonneg (l : List RResult) (h : ∀ r ∈ l, 0 ≤ r.score) :
    0 ≤ (l.map (·.score)).sum := by
  induction l with
  | nil => simp
  | cons r rs ih =>
    rw [List.map_cons, List.sum_cons]
    exact add_nonneg (h r (List.mem_cons_self r rs))
      (ih fun x hx => h x (List.mem_cons_of_mem r hx))

lemma sum_scores_le_length (l : List RResult) (h : ∀ r ∈ l, r.score ≤ 1) :
    (l.map (·.score)).sum ≤ (l.length : ℚ) := by
  induction l with
  | nil => simp
  | cons r rs ih =>
    rw [List.map_cons, List.sum_cons, List.length_cons]
    push_cast
    have := ih fun x hx => h x (List.mem_cons_of_mem r hx)
    have hr := h r (List.mem_cons_self r rs)
    linarith

lemma avgSimilarity_bounds (results : List RResult) (hne : results ≠ [])
    (h : ∀ r ∈ results, 0 ≤ r.score ∧ r.score ≤ 1) :
    0 ≤ avgSimilarity results ∧ avgSimilarity results ≤ 100 := by
  unfold avgSimilarity
  have hmem : ∀ r ∈ results.take 3, r ∈ results := fun r hr => List.mem_of_mem_take hr
  have hlen : 0 < (results.take 3).length := by
    rw [List.length_take]
    have : 0 < results.length := List.length_pos.mpr hne
    omega
  have hlenQ : (0 : ℚ) < ((results.take 3).length : ℚ) := by exact_mod_cast hlen
  have hsum0 : 0 ≤ ((results.take 3).map (·.score)).sum :=
    sum_scores_nonneg _ fun r hr => (h r (hmem r hr)).1
  have hsum1 : ((results.take 3).map (·.score)).sum ≤ ((results.take 3).length : ℚ) :=
    sum_scores_le_length _ fun r hr => (h r (hmem r hr)).2
  constructor
  · have : 0 ≤ ((results.take 3).map (·.score)).sum / ((results.take 3).length : ℚ) :=
      div_nonneg hsum0 (le_of_lt hlenQ)
    linarith
  · have hdiv : ((results.take 3).map (·.score)).sum / ((results.take 3).length : ℚ) ≤ 1 :=
      (div_le_one hlenQ).mpr hsum1
    linarith

lemma rndNE_cases (x : ℚ) :
    rndNE x = ⌊x⌋ ∨ (rndNE x = ⌊x⌋ + 1 ∧ 1/2 ≤ x - ⌊x⌋) := by
  unfold rndNE
  dsimp only
  split_ifs with h1 h2 h3
  · exact Or.inl rfl
  · exact Or.inr ⟨rfl, le_of_lt h2⟩
  · exact Or.inl rfl
  · exact Or.inr ⟨rfl, not_lt.mp h1⟩

lemma rndNE_nonneg (x : ℚ) (h : 0 ≤ x) : 0 ≤ rndNE x := by
  rcases rndNE_cases x with hc | ⟨hc, -⟩ <;> rw [hc]
  · exact Int.floor_nonneg.mpr h
  · have := Int.floor_nonneg.mpr h
    omega

lemma rndNE_le (x : ℚ) (n : ℤ) (h : x ≤ (n : ℚ)) : rndNE x ≤ n := by
  have hfl : ⌊x⌋ ≤ n := by
    have := Int.floor_le_floor h
    simpa using this
  rcases rndNE_cases x with hc | ⟨hc, hhalf⟩ <;> rw [hc]
  · exact hfl
  · have hlt : (⌊x⌋ : ℚ) < x := by
      have : (0 : ℚ) < x - ⌊x⌋ := lt_of_lt_of_le (by norm_num) hhalf
      linarith
    have : (⌊x⌋ : ℚ) < (n : ℚ) := lt_of_lt_of_le hlt h
    have : ⌊x⌋ < n := by exact_mod_cast this
    omega

lemma pyRound1_bounds (x : ℚ) (h0 : 0 ≤ x) (h1 : x ≤ 100) :
    0 ≤ pyRound1 x ∧ pyRound1 x ≤ 100 := by
  unfold pyRound1
  have hr0 : (0 : ℤ) ≤ rndNE (x * 10) := rndNE_nonneg _ (by linarith)
  have hr1 : rndNE (x * 10) ≤ (1000 : ℤ) := rndNE_le _ 1000 (by push_cast; linarith)
  constructor
  · apply div_nonneg _ (by norm_num)
    exact_mod_cast hr0
  · rw [div_le_iff₀ (by norm_num : (0:ℚ) < 10)]
    have : ((rndNE (x * 10) : ℤ) : ℚ) ≤ 1000 := by exact_mod_cast hr1
    linarith

/-- C6: whenever every result score lies in [0,1], the returned accuracy lies
in [0,100]; the model_match component is always one of {0, 50, 80, 100} and
the brand_match component one of {0, 80, 100} (in every branch, including
the empty-results and mismatch returns). -/
theorem c6_bounds (aux : AuxSearch) (results : List RResult)
    (um ub uat : Option String)
    (h : ∀ r ∈ results, 0 ≤ r.score ∧ r.score ≤ 1) :
    (0 ≤ (calculate_accuracy_score aux results um ub uat).accuracy ∧
      (calculate_accuracy_score aux results um ub uat).accuracy ≤ 100) ∧
    ((calculate_accuracy_score aux results um ub uat).breakdown.model_match = 0 ∨
      (calculate_accuracy_score aux results um ub uat).breakdown.model_match = 50 ∨
      (calculate_accuracy_score aux results um ub uat).breakdown.model_match = 80 ∨
      (calculate_accuracy_score aux results um ub uat).breakdown.model_match = 100) ∧
    ((calculate_accuracy_score aux results um ub uat).breakdown.brand_match = 0 ∨
      (calculate_accuracy_score aux results um ub uat).breakdown.brand_match = 80 ∨
      (calculate_accuracy_score aux results um ub uat).breakdown.brand_match = 100) := by
  unfold calculate_accuracy_score
  by_cases hres : results = []
  · rw [if_pos hres]
    norm_num
  · rw [if_neg hres]
    rcases hmi : mismatchInfo aux um ub uat with _ | ⟨t, ut⟩
    · have hmm := modelMatch_mem results um
      have hbm := brandMatch_mem results um ub
      have hmm' : 0 ≤ modelMatch results um ∧ modelMatch results um ≤ 100 := by
        rcases hmm with h' | h' | h' | h' <;> rw [h'] <;> norm_num
      have hbm' : 0 ≤ brandMatch results um ub ∧ brandMatch results um ub ≤ 100 := by
        rcases hbm with h' | h' | h' <;> rw [h'] <;> norm_num
      have havg := avgSimilarity_bounds results hres h
      have hcomp : 0 ≤ compositeScore results um ub ∧
          compositeScore results um ub ≤ 100 := by
        unfold compositeScore
        constructor
        · have := havg.1
          have := hmm'.1
          have := hbm'.1
          nlinarith [havg.1, hmm'.1, hbm'.1]
        · nlinarith [havg.2, hmm'.2, hbm'.2]
      have hacc := pyRound1_bounds _ hcomp.1 hcomp.2
      refine ⟨?_, ?_, ?_⟩
      · exact hacc
      · exact hmm
      · exact hbm
    · norm_num

/-- C6 witness: the bounds and component memberships at a concrete call with
an in-range score. -/
theorem c6_witness :
    (∀ r ∈ oneHalfResult, 0 ≤ r.score ∧ r.score ≤ 1) ∧
    ((0 ≤ (calculate_accuracy_score emptyAux oneHalfResult none none none).accuracy ∧
      (calculate_accuracy_score emptyAux oneHalfResult none none none).accuracy ≤ 100) ∧
    ((calculate_accuracy_score emptyAux oneHalfResult none none none).breakdown.model_match = 0 ∨
      (calculate_accuracy_score emptyAux oneHalfResult none none none).breakdown.model_match = 50 ∨
      (calculate_accuracy_score emptyAux oneHalfResult none none none).breakdown.model_match = 80 ∨
      (calculate_accuracy_score emptyAux oneHalfResult none none none).breakdown.model_match = 100) ∧
    ((calculate_accuracy_score emptyAux oneHalfResult none none none).breakdown.brand_match = 0 ∨
      (calculate_accuracy_score emptyAux oneHalfResult none none none).breakdown.brand_match = 80 ∨
      (calculate_accuracy_score emptyAux oneHalfResult none none none).breakdown.brand_match = 100)) :=
  ⟨by with_unfolding_all decide,
    c6_bounds emptyAux oneHalfResult none none none (by with_unfolding_all decide)⟩

/-- C7: the search wrapper over-fetches `3·top_k` results; results clearing
`min_similarity` are kept (truncated to `top_k`); when none clears, the same
over-fetched set is re-filtered once at `max(0.5, min_similarity − 0.15)`,
and when that is also empty the unfiltered first `top_k` are returned;
`filtered_count` counts the results clearing the threshold actually applied
(the relaxed one in the fallback case).  The final conjunct is Scenario D:
`min_similarity = 0.95`, nothing clears it, one result clears the relaxed
0.8 threshold, and `filtered_count = 1 ≠ 0`. -/
theorem c7_search_filtering (searchFn : Nat → List RResult) (top_k : Nat)
    (min_similarity : ℚ) :
    ((search_samsung_manuals_rag searchFn top_k min_similarity).results =
      (if (searchFn (3 * top_k)).filter (fun r => decide (min_similarity ≤ r.score)) ≠ [] then
        ((searchFn (3 * top_k)).filter (fun r => decide (min_similarity ≤ r.score))).take top_k
      else if (searchFn (3 * top_k)).filter
          (fun r => decide (max (1/2 : ℚ) (min_similarity - 3/20) ≤ r.score)) ≠ [] then
        ((searchFn (3 * top_k)).filter
          (fun r => decide (max (1/2 : ℚ) (min_similarity - 3/20) ≤ r.score))).take top_k
      else (searchFn (3 * top_k)).take top_k)) ∧
    ((search_samsung_manuals_rag searchFn top_k min_similarity).filtered_count =
      (if (searchFn (3 * top_k)).filter (fun r => decide (min_similarity ≤ r.score)) ≠ [] then
        (searchFn (3 * top_k)).countP (fun r => decide (min_similarity ≤ r.score))
      else (searchFn (3 * top_k)).countP
        (fun r => decide (max (1/2 : ℚ) (min_similarity - 3/20) ≤ r.score)))) ∧
    (search_samsung_manuals_rag scenarioDSearch 5 (19/20)).results = [⟨17/20, {}, ""⟩] ∧
    (search_samsung_manuals_rag scenarioDSearch 5 (19/20)).filtered_count = 1 ∧
    (search_samsung_manuals_rag scenarioDSearch 5 (19/20)).filtered_count ≠ 0 := by
  have hmul : top_k * 3 = 3 * top_k := Nat.mul_comm top_k 3
  refine ⟨?_, ?_, by with_unfolding_all decide, by with_unfolding_all decide,
    by with_unfolding_all decide⟩
  · unfold search_samsung_manuals_rag
    dsimp only
    rw [hmul]
    split_ifs with h1 h2 <;> simp_all
  · unfold search_samsung_manuals_rag
    dsimp only
    rw [hmul]
    split_ifs with h1 <;>
      simp_all [List.countP_eq_length_filter]

/-- C8 (failing input for the dimension-check claim): `add_documents` on a
store configured for dimension 1536 accepts a document whose embedding has
length 2, builds its point, writes it, and reports success (count 1) — no
dimension validation exists anywhere on the path, so the mismatched entry is
stored rather than rejected before the write. -/
theorem c8_no_dimension_check :
    add_documents 1536 [] [mismatchedDoc] =
      ([⟨"doc1", [1/10, 2/10], "Ice maker not producing ice", []⟩], 1) ∧
    ((add_documents 1536 [] [mismatchedDoc]).1.map (fun p => p.vector.length)) = [2] ∧
    (2 : Nat) ≠ 1536 ∧
    (∀ (dim dim' : Nat) (store : List QdrantPoint) (docs : List QdrantDoc),
      add_documents dim store docs = add_documents dim' store docs ∧
      (add_documents dim store docs).1 = store ++ docs.map mkPoint) := by
  refine ⟨by with_unfolding_all decide, by with_unfolding_all decide, by decide,
    fun dim dim' store docs => ⟨rfl, rfl⟩⟩

/-- C9 counterexample: both document-processing paths record the hash
produced by the *default* algorithm of `get_file_hash`, which is `"md5"`,
not SHA-256. -/
theorem c9_counterexample :
    get_file_hash_default_algorithm = "md5" ∧
    docling_file_hash_alg = Except.ok HashAlg.md5 ∧
    pymupdf_file_hash_alg = Except.ok HashAlg.md5 ∧
    (Except.ok HashAlg.md5 : Except String HashAlg) ≠ Except.ok HashAlg.sha256 := by
  refine ⟨rfl, rfl, rfl, fun h => ?_⟩
  exact HashAlg.noConfusion (Except.ok.inj h)

/-- C9 (amended): the content hash recorded for duplicate detection is
computed with MD5 — the default algorithm of `get_file_hash`, used by both
the Docling and the PyMuPDF processing paths; SHA-256 is supported by
`get_file_hash` when requested explicitly, and any other algorithm name
raises a ValueError. -/
theorem c9_md5_default :
    docling_file_hash_alg = Except.ok HashAlg.md5 ∧
    pymupdf_file_hash_alg = Except.ok HashAlg.md5 ∧
    get_file_hash_select "sha256" = Except.ok HashAlg.sha256 ∧
    (∀ a : String, a ≠ "md5" → a ≠ "sha256" →
      get_file_hash_select a = Except.error ("Unsupported algorithm: " ++ a)) := by
  refine ⟨rfl, rfl, rfl, fun a h1 h2 => ?_⟩
  unfold get_file_hash_select
  rw [if_neg h1, if_neg h2]

/-- C9 witness: the unsupported-algorithm branch of `get_file_hash`
instantiated at a concrete algorithm name. -/
theorem c9_witness :
    get_file_hash_select "crc32" = Except.error ("Unsupported algorithm: " ++ "crc32") :=
  c9_md5_default.2.2.2 "crc32" (by decide) (by decide)
